import Mathlib

/-!
Verification development for the passkey (WebAuthn) + JWT demo server.

The server's persistent state and four ceremony endpoints
(`/register-challenge`, `/register-verify`, `/login-challenge`,
`/login-verify`) from `server/index.js` are embedded as pure Lean
functions over an explicit database value.  The database schema follows
the Prisma migration: `User(id, username UNIQUE, currentChallenge NULL)`
and `Authenticator(id, credentialID, credentialPublicKey, counter,
transports, userId FK)` — note the migration creates a unique index only
on `User.username`, not on `Authenticator.credentialID`.

The cryptographic verification routines (`verifyRegistrationResponse`,
`verifyAuthenticationResponse` of `@simplewebauthn/server`) and the JWT
routines (`jsonwebtoken`) are external libraries whose sources are not
part of this repository; they are modelled from the spec, with library
exceptions modelled as `Except.error` values that the handlers map to a
generic 500 response, exactly as the `catch` blocks in `index.js` do.
-/

namespace Passkey

/-- A row of the `Authenticator` table, as created by the Prisma migration:
serial `id`, `credentialID` text, `credentialPublicKey` bytes, `counter`
bigint, `transports` text array, and the owning `userId`. -/
structure Authenticator where
  id : Nat
  credentialID : String
  credentialPublicKey : List Nat
  counter : Nat
  transports : List String
  userId : Nat
  deriving DecidableEq, Repr

/-- A row of the `User` table: serial `id`, unique `username`, and the
nullable `currentChallenge` column. -/
structure User where
  id : Nat
  username : String
  currentChallenge : Option String
  deriving DecidableEq, Repr

/-- The persistent state: both tables plus the serial-column counters. -/
structure DB where
  users : List User
  auths : List Authenticator
  nextUserId : Nat
  nextAuthId : Nat
  deriving DecidableEq, Repr

/-- The empty database. -/
def DB.empty : DB := { users := [], auths := [], nextUserId := 1, nextAuthId := 1 }

/-- `prisma.user.findUnique({ where: { username } })`. -/
def findUser (db : DB) (username : String) : Option User :=
  db.users.find? (fun u => u.username == username)

/-- The `authenticators` relation of a user: all `Authenticator` rows whose
`userId` equals the given user id (`include: { authenticators: true }`). -/
def userAuths (db : DB) (uid : Nat) : List Authenticator :=
  db.auths.filter (fun a => a.userId == uid)

/-- The row-level effect of the `currentChallenge` update: the row whose `id`
matches gets the new challenge value, every other row is unchanged. -/
def setUserChallenge (uid : Nat) (c : Option String) (u : User) : User :=
  if u.id = uid then { u with currentChallenge := c } else u

/-- `prisma.user.update({ where: { id: uid }, data: { currentChallenge: c } })`. -/
def setChallengeDB (db : DB) (uid : Nat) (c : Option String) : DB :=
  { db with users := db.users.map (setUserChallenge uid c) }

/-- The row-level effect of the counter update: the `Authenticator` row whose
`id` matches gets the new counter value, every other row is unchanged. -/
def bumpCounter (aid n : Nat) (x : Authenticator) : Authenticator :=
  if x.id = aid then { x with counter := n } else x

/-- Process-wide relying-party configuration (`RP_ID`, `ORIGIN`, `JWT_SECRET`). -/
structure RPConfig where
  rpID : String
  origin : String
  jwtSecret : String
  deriving DecidableEq, Repr

/-- The distinguishable error conditions thrown (as JS exceptions) by the
WebAuthn verification library; each corresponds to a distinct error
message at the throw site.  The handlers catch all of them and answer
with the same generic 500 response. -/
inductive VerifyError
  | challengeMismatch
  | originMismatch
  | rpIDMismatch
  | possibleCloneDetected
  deriving DecidableEq, Repr

/-- The credential data extracted from a registration response
(`verification.registrationInfo.credential`). -/
structure RegCredential where
  id : String
  publicKey : List Nat
  counter : Nat
  transports : List String
  deriving DecidableEq, Repr

/-- An abstract registration response: the challenge, origin and RP ID the
client embedded in it, the new credential it carries, and whether its
self-attestation signature is cryptographically valid (the cryptography
itself is abstracted to a boolean). -/
structure RegResponse where
  challenge : String
  origin : String
  rpID : String
  credential : RegCredential
  attestationValid : Bool
  deriving DecidableEq, Repr

/-- Result value of a successful (non-throwing) registration verification. -/
structure RegVerification where
  verified : Bool
  credential : RegCredential
  deriving DecidableEq, Repr

/-- Modelled from the spec: `verifyRegistrationResponse` of the external
`@simplewebauthn/server` library, whose source is not in this repository.
Per spec §4.3 it checks the response's embedded challenge against the
expected one and the origin and RP ID by exact equality, throwing on any
mismatch (modelled as `Except.error`), then verifies the attestation
signature and returns the `verified` flag with the extracted credential.
A null (`none`) expected challenge never equals the response's embedded
challenge string, so it throws the same challenge error. -/
def verifyRegistrationResponse (resp : RegResponse) (expectedChallenge : Option String)
    (expectedOrigin expectedRPID : String) : Except VerifyError RegVerification :=
  if expectedChallenge ≠ some resp.challenge then .error .challengeMismatch
  else if resp.origin ≠ expectedOrigin then .error .originMismatch
  else if resp.rpID ≠ expectedRPID then .error .rpIDMismatch
  else .ok { verified := resp.attestationValid, credential := resp.credential }

/-- An abstract authentication response: the declared credential id
(`response.id`), the embedded challenge, origin and RP ID, the key that
actually produced its signature (abstracting the cryptography: the
signature verifies against exactly this public key), and the
authenticator's reported post-use counter. -/
structure AuthResponse where
  id : String
  challenge : String
  origin : String
  rpID : String
  signedWithKey : List Nat
  newCounter : Nat
  deriving DecidableEq, Repr

/-- Result value of a successful (non-throwing) authentication verification
(`verification.verified` and `verification.authenticationInfo.newCounter`). -/
structure AuthVerification where
  verified : Bool
  newCounter : Nat
  deriving DecidableEq, Repr

/-- Modelled from the spec: `verifyAuthenticationResponse` of the external
`@simplewebauthn/server` library, whose source is not in this repository.
Per spec §4.4 it checks the embedded challenge, origin and RP ID by exact
equality (throwing on mismatch; a null expected challenge likewise
throws), then performs the anti-clone counter check: the reported new
counter must be strictly greater than the stored counter unless both are
0, and a violation throws (`PossibleCloneDetected`); finally the
signature is verified against the stored public key, yielding the
`verified` flag and the reported counter. -/
def verifyAuthenticationResponse (resp : AuthResponse) (expectedChallenge : Option String)
    (expectedOrigin expectedRPID : String) (cred : Authenticator) :
    Except VerifyError AuthVerification :=
  if expectedChallenge ≠ some resp.challenge then .error .challengeMismatch
  else if resp.origin ≠ expectedOrigin then .error .originMismatch
  else if resp.rpID ≠ expectedRPID then .error .rpIDMismatch
  else if (0 < resp.newCounter ∨ 0 < cred.counter) ∧ resp.newCounter ≤ cred.counter then
    .error .possibleCloneDetected
  else
    .ok { verified := resp.signedWithKey == cred.credentialPublicKey
          newCounter := resp.newCounter }

/-- Modelled from the spec: a signed session token of the `jsonwebtoken`
library (not in this repository): it binds a username, an absolute expiry
time in seconds, and the signing secret (standing for the signature). -/
structure Token where
  username : String
  exp : Nat
  secret : String
  deriving DecidableEq, Repr

/-- Modelled from the spec: `jwt.sign({ username }, secret, { expiresIn: 1h })`
issued at time `now` (seconds) produces a token expiring at `now + 3600`. -/
def signJwt (username secret : String) (now : Nat) : Token :=
  { username := username, exp := now + 3600, secret := secret }

/-- Modelled from the spec: `jwt.verify(token, secret)` at time `now`
succeeds, returning the bound username, iff the signature matches the
secret and the token is not yet expired (`now < exp`); otherwise it
fails (expired or invalid). -/
def verifyJwt (t : Token) (secret : String) (now : Nat) : Option String :=
  if t.secret = secret ∧ now < t.exp then some t.username else none

/-- Outcome of `POST /register-challenge` as sent by the handler. -/
inductive RegChallengeResult
  | usernameRequired
  | usernameTaken
  | ok
  deriving DecidableEq, Repr

/-- The `/register-challenge` handler: rejects a missing (falsy) username,
rejects an already-taken username, and otherwise creates the user with
the freshly generated challenge stored in `currentChallenge`.  The
challenge value produced by `generateRegistrationOptions` is passed in
as the `challenge` parameter (it is external randomness). -/
def registerChallenge (db : DB) (username challenge : String) :
    RegChallengeResult × DB :=
  if username = "" then (.usernameRequired, db)
  else match findUser db username with
    | some _ => (.usernameTaken, db)
    | none =>
      (.ok, { db with
        users := db.users ++
          [{ id := db.nextUserId, username := username,
             currentChallenge := some challenge }]
        nextUserId := db.nextUserId + 1 })

/-- Outcome of `POST /register-verify` as sent by the handler: 404 user not
found, 500 on a thrown library error (carrying which error was thrown),
400 `verified:false`, or 200 `verified:true`. -/
inductive RegVerifyResult
  | userNotFound
  | internalError (e : VerifyError)
  | notVerified
  | verified
  deriving DecidableEq, Repr

/-- The `/register-verify` handler: looks the user up by username, runs the
library verification against the stored `currentChallenge` and the
configured origin and RP ID, and on `verified` inserts the new
`Authenticator` row (no duplicate-`credentialID` check: neither the
handler nor the migration's schema enforces one) and clears the user's
challenge.  A thrown library error is caught and answered as a 500. -/
def registerVerify (db : DB) (username : String) (resp : RegResponse)
    (cfg : RPConfig) : RegVerifyResult × DB :=
  match findUser db username with
  | none => (.userNotFound, db)
  | some user =>
    match verifyRegistrationResponse resp user.currentChallenge cfg.origin cfg.rpID with
    | .error e => (.internalError e, db)
    | .ok v =>
      if v.verified then
        (.verified,
          (setChallengeDB
            { db with
              auths := db.auths ++
                [{ id := db.nextAuthId, credentialID := v.credential.id,
                   credentialPublicKey := v.credential.publicKey,
                   counter := v.credential.counter,
                   transports := v.credential.transports,
                   userId := user.id }]
              nextAuthId := db.nextAuthId + 1 }
            user.id none))
      else (.notVerified, db)

/-- Outcome of `POST /login-challenge` as sent by the handler: a single 404
covering both "user not found" and "no authenticators registered", or 200. -/
inductive LoginChallengeResult
  | notFoundOrNoAuthenticators
  | ok
  deriving DecidableEq, Repr

/-- The `/login-challenge` handler: one combined 404 when the user is absent
or owns zero authenticators; otherwise overwrites `currentChallenge`
with the freshly generated challenge (external randomness, passed in). -/
def loginChallenge (db : DB) (username challenge : String) :
    LoginChallengeResult × DB :=
  match findUser db username with
  | none => (.notFoundOrNoAuthenticators, db)
  | some user =>
    if (userAuths db user.id).length = 0 then (.notFoundOrNoAuthenticators, db)
    else (.ok, setChallengeDB db user.id (some challenge))

/-- Outcome of `POST /login-verify` as sent by the handler: 404 user not
found, 400 authenticator not recognized, 500 on a thrown library error
(carrying which error was thrown), 400 `verified:false`, or 200 with a
session token. -/
inductive LoginVerifyResult
  | userNotFound
  | authenticatorNotRecognized
  | internalError (e : VerifyError)
  | notVerified
  | verified (token : Token)
  deriving DecidableEq, Repr

/-- The HTTP status code and body that `index.js` sends for each
`/login-verify` outcome; every thrown library error is answered with the
same generic 500 response. -/
def LoginVerifyResult.toHTTP : LoginVerifyResult → Nat × String
  | .userNotFound => (404, "User not found")
  | .authenticatorNotRecognized => (400, "Authenticator not recognized")
  | .internalError _ => (500, "Internal server error")
  | .notVerified => (400, "Verification failed")
  | .verified _ => (200, "verified")

/-- The `/login-verify` handler: looks the user up, locates the presented
credential among the user's own authenticators only, runs the library
verification against the stored `currentChallenge`, configured origin
and RP ID and the stored credential, and on `verified` overwrites the
authenticator's counter with the reported value, clears the user's
challenge, and signs a 1-hour JWT.  A thrown library error is caught
and answered as a 500. -/
def loginVerify (db : DB) (username : String) (resp : AuthResponse)
    (cfg : RPConfig) (now : Nat) : LoginVerifyResult × DB :=
  match findUser db username with
  | none => (.userNotFound, db)
  | some user =>
    match (userAuths db user.id).find? (fun a => a.credentialID == resp.id) with
    | none => (.authenticatorNotRecognized, db)
    | some a =>
      match verifyAuthenticationResponse resp user.currentChallenge
          cfg.origin cfg.rpID a with
      | .error e => (.internalError e, db)
      | .ok v =>
        if v.verified then
          (.verified (signJwt user.username cfg.jwtSecret now),
            setChallengeDB { db with auths := db.auths.map (bumpCounter a.id v.newCounter) }
              user.id none)
        else (.notVerified, db)

/-! ## Concrete scenario data

The scenarios the spec describes, built by running the handlers themselves
from the empty database: "alice" registers credential `C1`, then "bob"
attempts to register the same `credentialID`; "carol" exists with zero
credentials. -/

/-- A fixed relying-party configuration for the concrete scenarios. -/
def cfg0 : RPConfig :=
  { rpID := "localhost", origin := "http://localhost:5173", jwtSecret := "top-secret" }

/-- Alice's registration response carrying credential `C1`. -/
def respAlice : RegResponse :=
  { challenge := "chA", origin := "http://localhost:5173", rpID := "localhost"
    credential := { id := "C1", publicKey := [1, 2, 3], counter := 0, transports := ["usb"] }
    attestationValid := true }

/-- State after alice's register-challenge. -/
def dbAlicePending : DB := (registerChallenge DB.empty "alice" "chA").2

/-- State after alice's successful register-verify: alice owns `C1`. -/
def dbAlice : DB := (registerVerify dbAlicePending "alice" respAlice cfg0).2

/-- State after bob's register-challenge (bob exists, zero credentials,
pending challenge `chB`). -/
def dbBobPending : DB := (registerChallenge dbAlice "bob" "chB").2

/-- Bob's registration response declaring the same `credentialID` `C1`
that alice already owns. -/
def respBobDup : RegResponse :=
  { challenge := "chB", origin := "http://localhost:5173", rpID := "localhost"
    credential := { id := "C1", publicKey := [9, 9], counter := 0, transports := [] }
    attestationValid := true }

/-- State after alice's login-challenge `chL` (on `dbAlice`). -/
def dbAliceLogin : DB := (loginChallenge dbAlice "alice" "chL").2

/-- Alice's authentication response: credential `C1`, challenge `chL`,
signed with the registered key, reported counter 1. -/
def respAliceLogin : AuthResponse :=
  { id := "C1", challenge := "chL", origin := "http://localhost:5173", rpID := "localhost"
    signedWithKey := [1, 2, 3], newCounter := 1 }

/-- State with carol present but owning zero credentials. -/
def dbCarol : DB := (registerChallenge DB.empty "carol" "chC").2

/-! ## General lemmas about the table operations -/

theorem find?_map_invar {α : Type _} (p : α → Bool) (g : α → α)
    (hg : ∀ a, p (g a) = p a) (l : List α) :
    (l.map g).find? p = (l.find? p).map g := by
  rw [List.find?_map]
  have h : (p ∘ g) = p := funext hg
  rw [h]

theorem filter_map_invar {α : Type _} (p : α → Bool) (g : α → α)
    (hg : ∀ a, p (g a) = p a) (l : List α) :
    (l.map g).filter p = (l.filter p).map g := by
  induction l with
  | nil => rfl
  | cons x xs ih =>
    by_cases hx : p x
    · simp only [List.map_cons, List.filter_cons, hg, hx, if_pos, ih]
    · simp only [List.map_cons, List.filter_cons, hg, hx, if_neg, ih]
      simp [hx, ih]

theorem setUserChallenge_username (uid : Nat) (c : Option String) (u : User) :
    (setUserChallenge uid c u).username = u.username := by
  unfold setUserChallenge; split <;> rfl

theorem bumpCounter_credentialID (aid n : Nat) (x : Authenticator) :
    (bumpCounter aid n x).credentialID = x.credentialID := by
  unfold bumpCounter; split <;> rfl

theorem bumpCounter_userId (aid n : Nat) (x : Authenticator) :
    (bumpCounter aid n x).userId = x.userId := by
  unfold bumpCounter; split <;> rfl

theorem findUser_setChallengeDB (db : DB) (uid : Nat) (c : Option String) (name : String) :
    findUser (setChallengeDB db uid c) name =
      (findUser db name).map (setUserChallenge uid c) := by
  unfold findUser setChallengeDB
  exact find?_map_invar _ _ (fun u => by rw [setUserChallenge_username]) _

theorem userAuths_setChallengeDB (db : DB) (uid : Nat) (c : Option String) (i : Nat) :
    userAuths (setChallengeDB db uid c) i = userAuths db i := rfl

theorem userAuths_bump (db : DB) (aid n i : Nat) :
    userAuths { db with auths := db.auths.map (bumpCounter aid n) } i =
      (userAuths db i).map (bumpCounter aid n) := by
  unfold userAuths
  exact filter_map_invar _ _ (fun x => by rw [bumpCounter_userId]) _

/-! ## Path characterizations of the handlers -/

/-- A fully valid login attempt takes the success path: counter overwritten
with the reported value, challenge cleared, 1-hour token signed. -/
theorem loginVerify_success (db : DB) (username : String) (resp : AuthResponse)
    (cfg : RPConfig) (now : Nat) (u : User) (a : Authenticator)
    (hu : findUser db username = some u)
    (ha : (userAuths db u.id).find? (fun x => x.credentialID == resp.id) = some a)
    (hch : u.currentChallenge = some resp.challenge)
    (hor : resp.origin = cfg.origin)
    (hrp : resp.rpID = cfg.rpID)
    (hsig : resp.signedWithKey = a.credentialPublicKey)
    (hcnt : a.counter < resp.newCounter ∨ (resp.newCounter = 0 ∧ a.counter = 0)) :
    loginVerify db username resp cfg now =
      (.verified (signJwt u.username cfg.jwtSecret now),
        setChallengeDB { db with auths := db.auths.map (bumpCounter a.id resp.newCounter) }
          u.id none) := by
  have hnc : ¬ ((0 < resp.newCounter ∨ 0 < a.counter) ∧ resp.newCounter ≤ a.counter) := by
    omega
  simp [loginVerify, hu, ha, verifyAuthenticationResponse, hch, hor, hrp, hsig, hnc]

/-- A login attempt presenting a challenge different from the stored one
(including a stored `none`) is answered by the thrown challenge error,
with the database unchanged. -/
theorem loginVerify_challenge_error (db : DB) (username : String) (resp : AuthResponse)
    (cfg : RPConfig) (now : Nat) (u : User) (a : Authenticator)
    (hu : findUser db username = some u)
    (ha : (userAuths db u.id).find? (fun x => x.credentialID == resp.id) = some a)
    (hch : u.currentChallenge ≠ some resp.challenge) :
    loginVerify db username resp cfg now = (.internalError .challengeMismatch, db) := by
  simp [loginVerify, hu, ha, verifyAuthenticationResponse, hch]

theorem bumpCounter_id (aid n : Nat) (x : Authenticator) :
    (bumpCounter aid n x).id = x.id := by
  unfold bumpCounter; split <;> rfl

/-- Analogous success characterization for registration: a valid response is
committed by inserting the `Authenticator` row and clearing the challenge;
no check against existing `credentialID`s occurs anywhere on this path. -/
theorem registerVerify_success (db : DB) (username : String) (resp : RegResponse)
    (cfg : RPConfig) (u : User)
    (hu : findUser db username = some u)
    (hch : u.currentChallenge = some resp.challenge)
    (hor : resp.origin = cfg.origin)
    (hrp : resp.rpID = cfg.rpID)
    (hatt : resp.attestationValid = true) :
    registerVerify db username resp cfg =
      (.verified,
        setChallengeDB
          { db with
            auths := db.auths ++
              [{ id := db.nextAuthId, credentialID := resp.credential.id,
                 credentialPublicKey := resp.credential.publicKey,
                 counter := resp.credential.counter,
                 transports := resp.credential.transports,
                 userId := u.id }]
            nextAuthId := db.nextAuthId + 1 }
          u.id none) := by
  simp [registerVerify, hu, verifyRegistrationResponse, hch, hor, hrp, hatt]

/-! ## The claims -/

/-- C1, counterexample.  The claim says registering a `credentialID` that
already exists anywhere in the registry fails with `Conflict` and leaves
the second user with zero credentials.  On the code it is false: the
Prisma migration puts a unique index only on `User.username` (none on
`Authenticator.credentialID`) and the `/register-verify` handler performs
no duplicate check, so after alice owns `C1`, bob's registration of the
same `credentialID` `C1` succeeds and bob (user id 2) ends up with one
credential; no `Conflict` outcome exists on this path at all. -/
theorem registerVerify_duplicate_credentialID_accepted_cex :
    (dbBobPending.auths.map fun a => a.credentialID) = ["C1"] ∧
    userAuths dbBobPending 2 = [] ∧
    (registerVerify dbBobPending "bob" respBobDup cfg0).1 = .verified ∧
    ((userAuths (registerVerify dbBobPending "bob" respBobDup cfg0).2 2).map
      fun a => a.credentialID) = ["C1"] := by
  exact ⟨rfl, rfl, rfl, rfl⟩

/-- C1, amended.  `/register-verify` performs no cross-user (nor per-user)
uniqueness check on `credentialID`: for every registry state, a
registration response that passes verification is committed by inserting
its credential for the target user, regardless of any equal
`credentialID` already stored under any user — in particular bob ends up
with one credential, not zero, and no `Conflict` occurs. -/
theorem registerVerify_no_credentialID_uniqueness (db : DB) (username : String)
    (resp : RegResponse) (cfg : RPConfig) (u : User)
    (hu : findUser db username = some u)
    (hch : u.currentChallenge = some resp.challenge)
    (hor : resp.origin = cfg.origin)
    (hrp : resp.rpID = cfg.rpID)
    (hatt : resp.attestationValid = true) :
    (registerVerify db username resp cfg).1 = .verified ∧
    (registerVerify db username resp cfg).2.auths =
      db.auths ++
        [{ id := db.nextAuthId, credentialID := resp.credential.id,
           credentialPublicKey := resp.credential.publicKey,
           counter := resp.credential.counter,
           transports := resp.credential.transports,
           userId := u.id }] := by
  rw [registerVerify_success db username resp cfg u hu hch hor hrp hatt]
  exact ⟨rfl, rfl⟩

/-- C1 witness: the amended theorem applied to the concrete alice/bob
scenario, where `C1` is already stored under alice. -/
theorem registerVerify_no_credentialID_uniqueness_witness :
    findUser dbBobPending "bob" =
      some { id := 2, username := "bob", currentChallenge := some "chB" } ∧
    (dbBobPending.auths.map fun a => a.credentialID) = ["C1"] ∧
    (registerVerify dbBobPending "bob" respBobDup cfg0).1 = .verified ∧
    (registerVerify dbBobPending "bob" respBobDup cfg0).2.auths =
      dbBobPending.auths ++
        [{ id := dbBobPending.nextAuthId, credentialID := respBobDup.credential.id,
           credentialPublicKey := respBobDup.credential.publicKey,
           counter := respBobDup.credential.counter,
           transports := respBobDup.credential.transports,
           userId := 2 }] := by
  refine ⟨rfl, rfl, ?_, ?_⟩
  · exact (registerVerify_no_credentialID_uniqueness dbBobPending "bob" respBobDup cfg0
      { id := 2, username := "bob", currentChallenge := some "chB" } rfl rfl rfl rfl rfl).1
  · exact (registerVerify_no_credentialID_uniqueness dbBobPending "bob" respBobDup cfg0
      { id := 2, username := "bob", currentChallenge := some "chB" } rfl rfl rfl rfl rfl).2

/-- C5: when the target user exists but owns no `Authenticator` whose
`credentialID` equals the response's declared id, `/login-verify` answers
`Authenticator not recognized` (400) and leaves the database unchanged —
whether or not that `credentialID` exists under a different user, since
the lookup ranges only over the target user's own rows. -/
theorem loginVerify_unrecognized_credential (db : DB) (username : String)
    (resp : AuthResponse) (cfg : RPConfig) (now : Nat) (u : User)
    (hu : findUser db username = some u)
    (hnone : ∀ a ∈ userAuths db u.id, a.credentialID ≠ resp.id) :
    loginVerify db username resp cfg now = (.authenticatorNotRecognized, db) := by
  have h : (userAuths db u.id).find? (fun x => x.credentialID == resp.id) = none :=
    List.find?_eq_none.mpr (fun a ha => by simpa using hnone a ha)
  simp [loginVerify, hu, h]

/-- Bob's registration response for his own distinct credential `C2`. -/
def respBobOwn : RegResponse :=
  { challenge := "chB", origin := "http://localhost:5173", rpID := "localhost"
    credential := { id := "C2", publicKey := [7], counter := 0, transports := [] }
    attestationValid := true }

/-- State where alice owns `C1` and bob owns `C2`. -/
def dbTwoUsers : DB := (registerVerify dbBobPending "bob" respBobOwn cfg0).2

/-- Bob's authentication response presenting alice's credential `C1`. -/
def respCross : AuthResponse :=
  { id := "C1", challenge := "x", origin := "http://localhost:5173", rpID := "localhost"
    signedWithKey := [1, 2, 3], newCounter := 5 }

/-- C5 witness: bob (user id 2, owning only `C2`) presents `C1`, which is
stored in the registry under alice; the attempt is rejected as
unrecognized with the database unchanged. -/
theorem loginVerify_unrecognized_credential_witness :
    findUser dbTwoUsers "bob" =
      some { id := 2, username := "bob", currentChallenge := none } ∧
    (∀ a ∈ userAuths dbTwoUsers 2, a.credentialID ≠ respCross.id) ∧
    ((dbTwoUsers.auths.filter fun a => a.credentialID == "C1").map fun a => a.userId) = [1] ∧
    loginVerify dbTwoUsers "bob" respCross cfg0 0 = (.authenticatorNotRecognized, dbTwoUsers) := by
  refine ⟨rfl, by decide, rfl, ?_⟩
  exact loginVerify_unrecognized_credential dbTwoUsers "bob" respCross cfg0 0
    { id := 2, username := "bob", currentChallenge := none } rfl (by decide)

/-- C9: a session token issued by a successful `/login-verify` at time `T`
binds the authenticated username and is valid for exactly one hour:
`jwt.verify` accepts it 59 minutes after issuance, returning the bound
username, and rejects it as expired 61 minutes after issuance. -/
theorem sessionToken_one_hour_validity (db : DB) (username : String)
    (resp : AuthResponse) (cfg : RPConfig) (T : Nat) (tok : Token)
    (h : (loginVerify db username resp cfg T).1 = .verified tok) :
    verifyJwt tok cfg.jwtSecret (T + 59 * 60) = some username ∧
    verifyJwt tok cfg.jwtSecret (T + 61 * 60) = none := by
  have htok : ∃ u : User, findUser db username = some u ∧
      tok = signJwt u.username cfg.jwtSecret T := by
    unfold loginVerify at h
    cases hfu : findUser db username with
    | none => rw [hfu] at h; simp at h
    | some u =>
      rw [hfu] at h
      cases hfa : (userAuths db u.id).find? (fun x => x.credentialID == resp.id) with
      | none => simp [hfa] at h
      | some a =>
        simp only [hfa] at h
        cases hv : verifyAuthenticationResponse resp u.currentChallenge cfg.origin cfg.rpID a with
        | error e => simp [hv] at h
        | ok v =>
          simp only [hv] at h
          by_cases hvb : v.verified = true
          · simp only [hvb, if_true] at h
            simp at h
            exact ⟨u, rfl, h.symm⟩
          · simp [hvb] at h
  obtain ⟨u, hfu, rfl⟩ := htok
  have huser : u.username = username := by
    have := List.find?_some hfu
    simpa using this
  constructor
  · have hlt : T + 59 * 60 < T + 3600 := by omega
    simp [verifyJwt, signJwt, hlt, huser]
  · have hge : ¬ (T + 61 * 60 < T + 3600) := by omega
    simp [verifyJwt, signJwt, hge]

/-- C9 witness: the token of the concrete successful login at `T = 1000`
is accepted at `T + 59` minutes and rejected at `T + 61` minutes. -/
theorem sessionToken_one_hour_validity_witness :
    (loginVerify dbAliceLogin "alice" respAliceLogin cfg0 1000).1 =
      .verified { username := "alice", exp := 4600, secret := "top-secret" } ∧
    verifyJwt { username := "alice", exp := 4600, secret := "top-secret" }
      cfg0.jwtSecret (1000 + 59 * 60) = some "alice" ∧
    verifyJwt { username := "alice", exp := 4600, secret := "top-secret" }
      cfg0.jwtSecret (1000 + 61 * 60) = none := by
  refine ⟨rfl, ?_, ?_⟩
  · exact (sessionToken_one_hour_validity dbAliceLogin "alice" respAliceLogin cfg0 1000
      { username := "alice", exp := 4600, secret := "top-secret" } rfl).1
  · exact (sessionToken_one_hour_validity dbAliceLogin "alice" respAliceLogin cfg0 1000
      { username := "alice", exp := 4600, secret := "top-secret" } rfl).2

/-- C10: when the target user exists and owns the presented credential but
has no pending challenge stored (`currentChallenge` is null), the library
throws on the challenge comparison; the handler catches it, so the
attempt surfaces as the one generic 500 `Internal server error` response
(the code exposes no structured `ChallengeMismatch` result), it never
succeeds, and the database is unchanged. -/
theorem loginVerify_null_challenge_internal_error (db : DB) (username : String)
    (resp : AuthResponse) (cfg : RPConfig) (now : Nat) (u : User) (a : Authenticator)
    (hu : findUser db username = some u)
    (ha : (userAuths db u.id).find? (fun x => x.credentialID == resp.id) = some a)
    (hch : u.currentChallenge = none) :
    ((loginVerify db username resp cfg now).1).toHTTP = (500, "Internal server error") ∧
    (∀ tok, (loginVerify db username resp cfg now).1 ≠ .verified tok) ∧
    (loginVerify db username resp cfg now).2 = db := by
  have h := loginVerify_challenge_error db username resp cfg now u a hu ha
    (by rw [hch]; exact fun hfalse => Option.noConfusion hfalse)
  rw [h]
  exact ⟨rfl, fun tok hbad => LoginVerifyResult.noConfusion hbad, rfl⟩

/-- C10 witness: alice after registration (challenge already cleared) owns
`C1` but `currentChallenge` is null; presenting a login response then
yields the generic 500 with the database unchanged. -/
theorem loginVerify_null_challenge_internal_error_witness :
    findUser dbAlice "alice" =
      some { id := 1, username := "alice", currentChallenge := none } ∧
    ((loginVerify dbAlice "alice" respAliceLogin cfg0 0).1).toHTTP =
      (500, "Internal server error") ∧
    (loginVerify dbAlice "alice" respAliceLogin cfg0 0).2 = dbAlice := by
  refine ⟨rfl, ?_, ?_⟩
  · exact (loginVerify_null_challenge_internal_error dbAlice "alice" respAliceLogin cfg0 0
      { id := 1, username := "alice", currentChallenge := none }
      { id := 1, credentialID := "C1", credentialPublicKey := [1, 2, 3],
        counter := 0, transports := ["usb"], userId := 1 } rfl rfl rfl).1
  · exact (loginVerify_null_challenge_internal_error dbAlice "alice" respAliceLogin cfg0 0
      { id := 1, username := "alice", currentChallenge := none }
      { id := 1, credentialID := "C1", credentialPublicKey := [1, 2, 3],
        counter := 0, transports := ["usb"], userId := 1 } rfl rfl rfl).2.2

/-- C2: with user, credential, challenge, origin, RP ID and signature all in
order, the anti-clone counter policy decides the outcome: if the reported
counter is strictly greater than the stored one, or both are 0, the check
passes and the successful login overwrites the stored counter with the
reported value; otherwise the library throws the clone-detection error
and the database — the stored counter included — is unchanged. -/
theorem loginVerify_counter_policy (db : DB) (username : String) (resp : AuthResponse)
    (cfg : RPConfig) (now : Nat) (u : User) (a : Authenticator)
    (hu : findUser db username = some u)
    (ha : (userAuths db u.id).find? (fun x => x.credentialID == resp.id) = some a)
    (hch : u.currentChallenge = some resp.challenge)
    (hor : resp.origin = cfg.origin)
    (hrp : resp.rpID = cfg.rpID)
    (hsig : resp.signedWithKey = a.credentialPublicKey) :
    ((a.counter < resp.newCounter ∨ (resp.newCounter = 0 ∧ a.counter = 0)) →
      (loginVerify db username resp cfg now).1 =
        .verified (signJwt u.username cfg.jwtSecret now) ∧
      ∀ x ∈ (loginVerify db username resp cfg now).2.auths,
        x.id = a.id → x.counter = resp.newCounter) ∧
    (¬ (a.counter < resp.newCounter ∨ (resp.newCounter = 0 ∧ a.counter = 0)) →
      loginVerify db username resp cfg now =
        (.internalError .possibleCloneDetected, db)) := by
  constructor
  · intro hcnt
    rw [loginVerify_success db username resp cfg now u a hu ha hch hor hrp hsig hcnt]
    refine ⟨rfl, ?_⟩
    intro x hx hid
    have hx2 : x ∈ db.auths.map (bumpCounter a.id resp.newCounter) := hx
    obtain ⟨y, hy, rfl⟩ := List.mem_map.mp hx2
    by_cases hyid : y.id = a.id
    · simp [bumpCounter, hyid]
    · rw [bumpCounter_id] at hid
      exact absurd hid hyid
  · intro hcnt
    have hnc : (0 < resp.newCounter ∨ 0 < a.counter) ∧ resp.newCounter ≤ a.counter := by
      omega
    simp [loginVerify, hu, ha, verifyAuthenticationResponse, hch, hor, hrp, hnc]

/-- C2 witness: the counter-policy theorem applied to alice's concrete login
(stored counter 0, reported counter 1): the login succeeds and the stored
counter becomes 1. -/
theorem loginVerify_counter_policy_witness :
    findUser dbAliceLogin "alice" =
      some { id := 1, username := "alice", currentChallenge := some "chL" } ∧
    (0 < 1 ∨ (1 = 0 ∧ 0 = 0)) ∧
    (loginVerify dbAliceLogin "alice" respAliceLogin cfg0 7).1 =
      .verified (signJwt "alice" cfg0.jwtSecret 7) ∧
    ∀ x ∈ (loginVerify dbAliceLogin "alice" respAliceLogin cfg0 7).2.auths,
      x.id = 1 → x.counter = 1 := by
  have h := (loginVerify_counter_policy dbAliceLogin "alice" respAliceLogin cfg0 7
    { id := 1, username := "alice", currentChallenge := some "chL" }
    { id := 1, credentialID := "C1", credentialPublicKey := [1, 2, 3],
      counter := 0, transports := ["usb"], userId := 1 }
    rfl rfl rfl rfl rfl rfl).1 (by decide)
  exact ⟨rfl, by decide, h.1, h.2⟩

/-- C3: both verify endpoints mutate nothing on any failing outcome: when
`/register-verify` does not answer `verified:true` the database (users,
challenges, authenticators, counters) is exactly the input database, and
likewise when `/login-verify` does not answer with a token. -/
theorem verify_handlers_no_mutation_on_failure (db : DB) (username : String)
    (rresp : RegResponse) (aresp : AuthResponse) (cfg : RPConfig) (now : Nat) :
    ((registerVerify db username rresp cfg).1 ≠ .verified →
      (registerVerify db username rresp cfg).2 = db) ∧
    ((∀ tok, (loginVerify db username aresp cfg now).1 ≠ .verified tok) →
      (loginVerify db username aresp cfg now).2 = db) := by
  constructor
  · intro hne
    cases hfu : findUser db username with
    | none => simp [registerVerify, hfu]
    | some u =>
      cases hv : verifyRegistrationResponse rresp u.currentChallenge cfg.origin cfg.rpID with
      | error e => simp [registerVerify, hfu, hv]
      | ok v =>
        by_cases hvb : v.verified = true
        · exact absurd (by simp [registerVerify, hfu, hv, hvb]) hne
        · simp [registerVerify, hfu, hv, hvb]
  · intro hne
    cases hfu : findUser db username with
    | none => simp [loginVerify, hfu]
    | some u =>
      cases hfa : (userAuths db u.id).find? (fun x => x.credentialID == aresp.id) with
      | none => simp [loginVerify, hfu, hfa]
      | some a =>
        cases hv : verifyAuthenticationResponse aresp u.currentChallenge cfg.origin cfg.rpID a with
        | error e => simp [loginVerify, hfu, hfa, hv]
        | ok v =>
          by_cases hvb : v.verified = true
          · exact absurd (by simp [loginVerify, hfu, hfa, hv, hvb])
              (hne (signJwt u.username cfg.jwtSecret now))
          · simp [loginVerify, hfu, hfa, hv, hvb]

/-- C3 witness: concrete failing attempts — a register-verify and a
login-verify against alice's cleared (null) challenge — leave the
database exactly as it was. -/
theorem verify_handlers_no_mutation_on_failure_witness :
    (registerVerify dbAlice "alice" respAlice cfg0).1 ≠ .verified ∧
    (registerVerify dbAlice "alice" respAlice cfg0).2 = dbAlice ∧
    (loginVerify dbAlice "alice" respAliceLogin cfg0 0).2 = dbAlice := by
  have hreg : (registerVerify dbAlice "alice" respAlice cfg0).1 =
      .internalError .challengeMismatch := rfl
  have hlog : (loginVerify dbAlice "alice" respAliceLogin cfg0 0).1 =
      .internalError .challengeMismatch := rfl
  refine ⟨by rw [hreg]; exact fun hbad => RegVerifyResult.noConfusion hbad, ?_, ?_⟩
  · exact (verify_handlers_no_mutation_on_failure dbAlice "alice" respAlice
      respAliceLogin cfg0 0).1
      (by rw [hreg]; exact fun hbad => RegVerifyResult.noConfusion hbad)
  · exact (verify_handlers_no_mutation_on_failure dbAlice "alice" respAlice
      respAliceLogin cfg0 0).2
      (fun tok => by rw [hlog]; exact fun hbad => LoginVerifyResult.noConfusion hbad)

/-- C4: a challenge round-trip is single-use.  Issuing challenge `ch` for a
user and then presenting it in an otherwise valid login succeeds exactly
once: the success clears the stored challenge (`currentChallenge` becomes
null), so presenting the very same value again fails on the challenge
comparison with the database unchanged; and a consume presenting a wrong
value fails the same way, leaving the stored challenge untouched. -/
theorem challenge_single_use (db : DB) (username ch : String) (resp : AuthResponse)
    (cfg : RPConfig) (now : Nat) (u : User) (a : Authenticator)
    (hu : findUser db username = some u)
    (ha : (userAuths db u.id).find? (fun x => x.credentialID == resp.id) = some a)
    (hresp : resp.challenge = ch)
    (hor : resp.origin = cfg.origin)
    (hrp : resp.rpID = cfg.rpID)
    (hsig : resp.signedWithKey = a.credentialPublicKey)
    (hcnt : a.counter < resp.newCounter ∨ (resp.newCounter = 0 ∧ a.counter = 0))
    (db1 : DB) (hdb1 : db1 = (loginChallenge db username ch).2)
    (db2 : DB) (hdb2 : db2 = (loginVerify db1 username resp cfg now).2) :
    findUser db1 username = some { u with currentChallenge := some ch } ∧
    (loginVerify db1 username resp cfg now).1 =
      .verified (signJwt u.username cfg.jwtSecret now) ∧
    findUser db2 username = some { u with currentChallenge := none } ∧
    loginVerify db2 username resp cfg now = (.internalError .challengeMismatch, db2) ∧
    (∀ v, v ≠ ch →
      loginVerify db1 username { resp with challenge := v } cfg now =
        (.internalError .challengeMismatch, db1) ∧
      findUser db1 username = some { u with currentChallenge := some ch }) := by
  have hne : userAuths db u.id ≠ [] := by
    intro hempty
    rw [hempty] at ha
    exact Option.noConfusion ha
  have hlen : ¬ ((userAuths db u.id).length = 0) := by
    simpa [List.length_eq_zero] using hne
  have hdb1' : db1 = setChallengeDB db u.id (some ch) := by
    rw [hdb1]; simp [loginChallenge, hu, hlen]
  have hu1 : findUser db1 username = some { u with currentChallenge := some ch } := by
    rw [hdb1', findUser_setChallengeDB, hu]
    simp [setUserChallenge]
  have ha1 : (userAuths db1 ({ u with currentChallenge := some ch } : User).id).find?
      (fun x => x.credentialID == resp.id) = some a := by
    show (userAuths db1 u.id).find? (fun x => x.credentialID == resp.id) = some a
    rw [hdb1']
    exact ha
  have hch1 : ({ u with currentChallenge := some ch } : User).currentChallenge =
      some resp.challenge := by
    rw [hresp]
  have hsucc := loginVerify_success db1 username resp cfg now
    { u with currentChallenge := some ch } a hu1 ha1 hch1 hor hrp hsig hcnt
  have hdb2' : db2 = setChallengeDB
      { db1 with auths := db1.auths.map (bumpCounter a.id resp.newCounter) }
      u.id none := by
    rw [hdb2, hsucc]
  have hu2 : findUser db2 username = some { u with currentChallenge := none } := by
    rw [hdb2', findUser_setChallengeDB]
    have haux : findUser
        { db1 with auths := db1.auths.map (bumpCounter a.id resp.newCounter) } username =
        findUser db1 username := rfl
    rw [haux, hu1]
    simp [setUserChallenge]
  have ha2 : (userAuths db2 ({ u with currentChallenge := none } : User).id).find?
      (fun x => x.credentialID == resp.id) =
      some (bumpCounter a.id resp.newCounter a) := by
    show (userAuths db2 u.id).find? (fun x => x.credentialID == resp.id) =
      some (bumpCounter a.id resp.newCounter a)
    have h1 : userAuths db2 u.id =
        (userAuths db u.id).map (bumpCounter a.id resp.newCounter) := by
      rw [hdb2', userAuths_setChallengeDB]
      have haux : userAuths
          { db1 with auths := db1.auths.map (bumpCounter a.id resp.newCounter) } u.id =
          (userAuths db1 u.id).map (bumpCounter a.id resp.newCounter) :=
        userAuths_bump db1 a.id resp.newCounter u.id
      rw [haux, hdb1']
      rfl
    rw [h1, find?_map_invar _ _ (fun x => by rw [bumpCounter_credentialID]) _, ha]
    rfl
  have hsecond := loginVerify_challenge_error db2 username resp cfg now
    { u with currentChallenge := none } (bumpCounter a.id resp.newCounter a) hu2 ha2
    (fun hbad => Option.noConfusion hbad)
  refine ⟨hu1, by rw [hsucc], hu2, hsecond, ?_⟩
  intro v hv
  have hwrong := loginVerify_challenge_error db1 username { resp with challenge := v }
    cfg now { u with currentChallenge := some ch } a hu1 ha1
    (fun hbad => hv (Option.some.inj hbad).symm)
  exact ⟨hwrong, hu1⟩

/-- C4 witness: the round trip on alice's concrete login: issuing `chL` and
presenting it succeeds once; presenting the same value again fails with
the challenge error and an unchanged database, as does presenting a
wrong value. -/
theorem challenge_single_use_witness :
    findUser dbAliceLogin "alice" =
      some { id := 1, username := "alice", currentChallenge := some "chL" } ∧
    (loginVerify dbAliceLogin "alice" respAliceLogin cfg0 0).1 =
      .verified (signJwt "alice" cfg0.jwtSecret 0) ∧
    loginVerify (loginVerify dbAliceLogin "alice" respAliceLogin cfg0 0).2 "alice"
        respAliceLogin cfg0 0 =
      (.internalError .challengeMismatch,
        (loginVerify dbAliceLogin "alice" respAliceLogin cfg0 0).2) ∧
    loginVerify dbAliceLogin "alice" { respAliceLogin with challenge := "bogus" } cfg0 0 =
      (.internalError .challengeMismatch, dbAliceLogin) := by
  have h := challenge_single_use dbAlice "alice" "chL" respAliceLogin cfg0 0
    { id := 1, username := "alice", currentChallenge := none }
    { id := 1, credentialID := "C1", credentialPublicKey := [1, 2, 3],
      counter := 0, transports := ["usb"], userId := 1 }
    rfl rfl rfl rfl rfl rfl (by decide)
    dbAliceLogin rfl
    ((loginVerify dbAliceLogin "alice" respAliceLogin cfg0 0).2) rfl
  exact ⟨h.1, h.2.1, h.2.2.2.1, (h.2.2.2.2 "bogus" (by decide)).1⟩

/-- C6: the data model stores at most one pending challenge per user (the
single nullable `currentChallenge` column), and every issuing operation
overwrites it, last-writer-wins: issuing `c` stores exactly `c` whatever
was stored before, a second issue of `c2` leaves exactly `c2`, and
register-challenge creates the user holding exactly the issued value. -/
theorem challenge_last_writer_wins (db : DB) (username c c2 : String) (u : User)
    (hu : findUser db username = some u)
    (hne : userAuths db u.id ≠ []) :
    (loginChallenge db username c).1 = .ok ∧
    findUser (loginChallenge db username c).2 username =
      some { u with currentChallenge := some c } ∧
    (loginChallenge (loginChallenge db username c).2 username c2).1 = .ok ∧
    findUser (loginChallenge (loginChallenge db username c).2 username c2).2 username =
      some { u with currentChallenge := some c2 } ∧
    (∀ name ch, name ≠ "" → findUser db name = none →
      findUser (registerChallenge db name ch).2 name =
        some { id := db.nextUserId, username := name, currentChallenge := some ch }) := by
  have hlen : ¬ ((userAuths db u.id).length = 0) := by
    simpa [List.length_eq_zero] using hne
  have h1 : loginChallenge db username c = (.ok, setChallengeDB db u.id (some c)) := by
    simp [loginChallenge, hu, hlen]
  have hu1 : findUser (setChallengeDB db u.id (some c)) username =
      some { u with currentChallenge := some c } := by
    rw [findUser_setChallengeDB, hu]
    simp [setUserChallenge]
  have ha1 : userAuths (setChallengeDB db u.id (some c))
      ({ u with currentChallenge := some c } : User).id = userAuths db u.id :=
    userAuths_setChallengeDB db u.id (some c) u.id
  have h2 : loginChallenge (setChallengeDB db u.id (some c)) username c2 =
      (.ok, setChallengeDB (setChallengeDB db u.id (some c)) u.id (some c2)) := by
    simp only [loginChallenge, hu1]
    rw [ha1]
    simp [hlen]
  refine ⟨by rw [h1], by rw [h1]; exact hu1, by rw [h1, h2], ?_, ?_⟩
  · rw [h1, h2]
    show findUser (setChallengeDB (setChallengeDB db u.id (some c)) u.id (some c2))
      username = some { u with currentChallenge := some c2 }
    rw [findUser_setChallengeDB, hu1]
    simp [setUserChallenge]
  · intro name ch hname habs
    have habs' : db.users.find? (fun x => x.username == name) = none := habs
    simp only [registerChallenge, if_neg hname, habs]
    show findUser { db with
        users := db.users ++
          [{ id := db.nextUserId, username := name, currentChallenge := some ch }]
        nextUserId := db.nextUserId + 1 } name =
      some { id := db.nextUserId, username := name, currentChallenge := some ch }
    unfold findUser
    rw [List.find?_append]
    simp [habs', List.find?_cons_of_pos]

/-- C6 witness: alice's stored challenge after two successive issues is
exactly the second value. -/
theorem challenge_last_writer_wins_witness :
    findUser dbAlice "alice" =
      some { id := 1, username := "alice", currentChallenge := none } ∧
    userAuths dbAlice 1 ≠ [] ∧
    findUser (loginChallenge dbAlice "alice" "chL").2 "alice" =
      some { id := 1, username := "alice", currentChallenge := some "chL" } ∧
    findUser (loginChallenge (loginChallenge dbAlice "alice" "chL").2 "alice" "chM").2
      "alice" = some { id := 1, username := "alice", currentChallenge := some "chM" } := by
  have h := challenge_last_writer_wins dbAlice "alice" "chL" "chM"
    { id := 1, username := "alice", currentChallenge := none } rfl (by decide)
  exact ⟨rfl, by decide, h.2.1, h.2.2.2.1⟩

/-- C7: a second register-challenge for the same not-yet-verified username is
rejected (`Username already taken`) without touching the database, so no
second user row is ever created for that username; a register-challenge
for a different fresh username succeeds and neither affects the first
username's row nor duplicates it. -/
theorem registerChallenge_no_duplicate_user (db : DB) (username c1 c2 : String)
    (hname : username ≠ "") (habs : findUser db username = none)
    (db1 : DB) (hdb1 : db1 = (registerChallenge db username c1).2) :
    registerChallenge db1 username c2 = (.usernameTaken, db1) ∧
    (db1.users.filter fun x => x.username == username).length = 1 ∧
    (∀ u2 c3, u2 ≠ "" → u2 ≠ username → findUser db u2 = none →
      (registerChallenge db1 u2 c3).1 = .ok ∧
      findUser (registerChallenge db1 u2 c3).2 username = findUser db1 username ∧
      ((registerChallenge db1 u2 c3).2.users.filter
        fun x => x.username == username).length = 1) := by
  have habs' : db.users.find? (fun x => x.username == username) = none := habs
  have hdb1' : db1 = { db with
      users := db.users ++
        [{ id := db.nextUserId, username := username, currentChallenge := some c1 }]
      nextUserId := db.nextUserId + 1 } := by
    rw [hdb1]; simp [registerChallenge, if_neg hname, habs]
  have hfind1 : findUser db1 username =
      some { id := db.nextUserId, username := username, currentChallenge := some c1 } := by
    rw [hdb1']
    unfold findUser
    rw [List.find?_append]
    simp [habs', List.find?_cons_of_pos]
  have hfilter0 : db.users.filter (fun x => x.username == username) = [] :=
    List.filter_eq_nil_iff.mpr (List.find?_eq_none.mp habs')
  have hfilter1 : (db1.users.filter fun x => x.username == username).length = 1 := by
    rw [hdb1']
    show ((db.users ++
      [({ id := db.nextUserId, username := username,
          currentChallenge := some c1 } : User)]).filter
        fun x => x.username == username).length = 1
    rw [List.filter_append, hfilter0]
    simp
  refine ⟨?_, hfilter1, ?_⟩
  · simp [registerChallenge, if_neg hname, hfind1]
  · intro u2 c3 hu2 hne2 habs2
    have habs2' : db.users.find? (fun x => x.username == u2) = none := habs2
    have hfind2 : findUser db1 u2 = none := by
      rw [hdb1']
      unfold findUser
      rw [List.find?_append, habs2']
      simp [Ne.symm hne2]
    have hdb2' : (registerChallenge db1 u2 c3).2 = { db1 with
        users := db1.users ++
          [{ id := db1.nextUserId, username := u2, currentChallenge := some c3 }]
        nextUserId := db1.nextUserId + 1 } := by
      simp [registerChallenge, if_neg hu2, hfind2]
    have hok : (registerChallenge db1 u2 c3).1 = .ok := by
      simp [registerChallenge, if_neg hu2, hfind2]
    refine ⟨hok, ?_, ?_⟩
    · rw [hdb2']
      show ((db1.users ++
        [({ id := db1.nextUserId, username := u2,
            currentChallenge := some c3 } : User)]).find?
          fun x => x.username == username) = findUser db1 username
      rw [List.find?_append]
      have hthis : findUser db1 username =
          some { id := db.nextUserId, username := username,
                 currentChallenge := some c1 } := hfind1
      unfold findUser at hthis
      rw [hthis]
      exact hfind1.symm
    · rw [hdb2']
      show ((db1.users ++
        [({ id := db1.nextUserId, username := u2,
            currentChallenge := some c3 } : User)]).filter
          fun x => x.username == username).length = 1
      rw [List.filter_append]
      have hnil : (List.filter (fun x => x.username == username)
          [({ id := db1.nextUserId, username := u2,
              currentChallenge := some c3 } : User)]) = [] := by
        simp [hne2]
      rw [hnil, List.append_nil]
      exact hfilter1

/-- C7 witness: from the empty database, a second register-challenge for
"alice" is rejected leaving exactly one alice row, while a
register-challenge for "bob" succeeds without touching alice's row. -/
theorem registerChallenge_no_duplicate_user_witness :
    findUser DB.empty "alice" = none ∧
    registerChallenge dbAlicePending "alice" "chA2" = (.usernameTaken, dbAlicePending) ∧
    (dbAlicePending.users.filter fun x => x.username == "alice").length = 1 ∧
    (registerChallenge dbAlicePending "bob" "chB").1 = .ok ∧
    findUser (registerChallenge dbAlicePending "bob" "chB").2 "alice" =
      findUser dbAlicePending "alice" ∧
    ((registerChallenge dbAlicePending "bob" "chB").2.users.filter
      fun x => x.username == "alice").length = 1 := by
  have h := registerChallenge_no_duplicate_user DB.empty "alice" "chA" "chA2"
    (by decide) rfl dbAlicePending rfl
  have h2 := h.2.2 "bob" "chB" (by decide) (by decide) rfl
  exact ⟨rfl, h.1, h.2.1, h2.1, h2.2.1, h2.2.2⟩

/-- C8, counterexample.  The claim says the login ceremony distinguishes
"user not found" from "zero credentials", with `/login-verify` failing
`NoCredentials` on an empty credential set.  On the code it is false:
`/login-challenge` answers the identical combined 404 for carol (who
exists with zero credentials) and for the absent dave, and
`/login-verify` for carol fails with the 400 `Authenticator not
recognized` error — the result type of the handler has no `NoCredentials`
outcome at all. -/
theorem login_failure_taxonomy_cex :
    findUser dbCarol "carol" =
      some { id := 1, username := "carol", currentChallenge := some "chC" } ∧
    findUser dbCarol "dave" = none ∧
    userAuths dbCarol 1 = [] ∧
    loginChallenge dbCarol "carol" "x" = loginChallenge dbCarol "dave" "x" ∧
    (loginVerify dbCarol "carol" respAliceLogin cfg0 0).1 = .authenticatorNotRecognized := by
  exact ⟨rfl, rfl, rfl, rfl, rfl⟩

/-- C8, amended.  `/login-challenge` fails with the single combined
not-found-or-no-authenticators 404 both when the user is absent and when
the user owns zero credentials, without distinguishing the two causes;
`/login-verify` fails with the 404 user-not-found when the user is
absent, and when the user exists with zero credentials it falls through
to the 400 unrecognized-credential error — there is no distinct
`NoCredentials` classification.  No state is mutated in any of these
cases. -/
theorem login_failure_taxonomy_amended (db : DB) (username ch : String)
    (resp : AuthResponse) (cfg : RPConfig) (now : Nat) :
    (findUser db username = none →
      loginChallenge db username ch = (.notFoundOrNoAuthenticators, db) ∧
      loginVerify db username resp cfg now = (.userNotFound, db)) ∧
    (∀ u, findUser db username = some u → userAuths db u.id = [] →
      loginChallenge db username ch = (.notFoundOrNoAuthenticators, db) ∧
      loginVerify db username resp cfg now = (.authenticatorNotRecognized, db)) := by
  constructor
  · intro h
    exact ⟨by simp [loginChallenge, h], by simp [loginVerify, h]⟩
  · intro u hu hempty
    have hlen : (userAuths db u.id).length = 0 := by rw [hempty]; rfl
    have hfind : (userAuths db u.id).find? (fun x => x.credentialID == resp.id) = none := by
      rw [hempty]; rfl
    exact ⟨by simp [loginChallenge, hu, hlen], by simp [loginVerify, hu, hfind]⟩

/-- C8 witness: the amended taxonomy applied to carol (exists, zero
credentials) and dave (absent). -/
theorem login_failure_taxonomy_amended_witness :
    findUser dbCarol "dave" = none ∧
    loginChallenge dbCarol "dave" "x" = (.notFoundOrNoAuthenticators, dbCarol) ∧
    loginVerify dbCarol "dave" respAliceLogin cfg0 0 = (.userNotFound, dbCarol) ∧
    userAuths dbCarol 1 = [] ∧
    loginChallenge dbCarol "carol" "x" = (.notFoundOrNoAuthenticators, dbCarol) ∧
    loginVerify dbCarol "carol" respAliceLogin cfg0 0 =
      (.authenticatorNotRecognized, dbCarol) := by
  have hd := (login_failure_taxonomy_amended dbCarol "dave" "x" respAliceLogin cfg0 0).1 rfl
  have hc := (login_failure_taxonomy_amended dbCarol "carol" "x" respAliceLogin cfg0 0).2
    { id := 1, username := "carol", currentChallenge := some "chC" } rfl rfl
  exact ⟨rfl, hd.1, hd.2, rfl, hc.1, hc.2⟩

end Passkey
